import Mathlib

/-!
Verification of the arXiv site-specific content-extraction dispatcher
(`core/custom_scraper/arxiv.py`).

The Python module is shallowly embedded here:

* Python `str` operations are modelled as executable functions over
  `List Char` (a Python string is its character sequence), wrapped in
  Lean `String` at the interface.
* `BeautifulSoup` parsing is not re-implemented: every extractor works on
  a `Soup` record holding exactly the query results the Python code asks
  the parsed tree for (tag presence, attribute presence, attribute value,
  tag text).  `none` at the outer level models an absent tag, so that the
  Python `find(...)[attr]` / `find(...).get_text()` failure modes
  (`TypeError` / `KeyError` / `AttributeError`) are representable.
* Python exceptions are modelled with `Except String`; the dispatcher,
  which catches every exception, is a total function.
* Process-wide globals (`ARXIV_SCRAPER_MODE`, `YEAR`) and the external
  collaborator `extract_and_convert_dates` are passed as parameters.
-/

/-- Python whitespace test used by `str.strip` / `str.split`. -/
def pySpace (c : Char) : Bool := c.isWhitespace

/-- Python `s.strip()` on the character list: drop whitespace on both ends. -/
def pyStripL (s : List Char) : List Char :=
  ((s.dropWhile pySpace).reverse.dropWhile pySpace).reverse

/-- Python `s.strip()` on `String`. -/
def pyStrip (s : String) : String := String.mk (pyStripL s.data)

/-- Python `s.startswith(p)`. -/
def pyStartswith (s p : String) : Bool := p.data.isPrefixOf s.data

/-- Python `p in s` (substring containment). -/
def pyContains (p : List Char) : List Char → Bool
  | [] => p.isEmpty
  | c :: rest => p.isPrefixOf (c :: rest) || pyContains p rest

/-- Python `s.replace(pat, repl, 1)`: replace the first occurrence only. -/
def replaceFirstAux (pat repl : List Char) : List Char → List Char
  | [] => []
  | c :: rest =>
    if pat.isPrefixOf (c :: rest) then repl ++ (c :: rest).drop pat.length
    else c :: replaceFirstAux pat repl rest

/-- Python `s.replace(pat, repl, 1)` including the empty-pattern case. -/
def pyReplaceFirst (pat repl s : List Char) : List Char :=
  if pat.isEmpty then repl ++ s else replaceFirstAux pat repl s

/-- Python `s.split()` (split on whitespace runs, dropping empty pieces). -/
def pySplitWs (s : List Char) : List (List Char) :=
  (s.splitOnP pySpace).filter (fun w => ¬ w.isEmpty)

/-- Python `s.split(c)` for a single separator character (empties kept). -/
def pySplitChar (sep : Char) (s : List Char) : List (List Char) :=
  s.splitOnP (fun c => c == sep)

/-- Python `s.isdigit()` restricted to ASCII digits: nonempty, all digits. -/
def pyIsdigit (w : List Char) : Bool := ¬ w.isEmpty && w.all Char.isDigit

/-- Python `s.replace(pat, repl)` (all non-overlapping occurrences, left to
right), fuelled so that the definition reduces definitionally; one unit of
fuel is spent per character, which suffices for a nonempty pattern.  The
`pat = []` Python behaviour (interleaving) is not needed here: the only
call site uses the pattern `", ,"`. -/
def pyReplaceAllFuel (pat repl : List Char) : Nat → List Char → List Char
  | _, [] => []
  | 0, s => s
  | fuel + 1, c :: rest =>
    if ¬ pat.isEmpty && pat.isPrefixOf (c :: rest) then
      repl ++ pyReplaceAllFuel pat repl fuel ((c :: rest).drop pat.length)
    else
      c :: pyReplaceAllFuel pat repl fuel rest

/-- Python `s.replace(pat, repl)` for a nonempty pattern. -/
def pyReplaceAll (pat repl s : List Char) : List Char :=
  pyReplaceAllFuel pat repl s.length s

deriving instance DecidableEq for Except

/-! ## URL classification (`classify_arxiv_url`, lines 42-62)

Each pattern `^https?://arxiv\.org/<seg>/.*` is a prefix test with either
scheme.  The listing patterns `^https?://arxiv\.org/list/.*/new(?:\?.*)?$`
additionally require the suffix `/new` (resp. `/recent`) followed by the
end of the string or a query part introduced by a question mark. -/

/-- Does `s` start with `http://<path>` or `https://<path>`? -/
def matchesHttpPath (path : String) (s : List Char) : Bool :=
  (("http://".data ++ path.data).isPrefixOf s) ||
  (("https://".data ++ path.data).isPrefixOf s)

/-- The remainder of `s` after the scheme and `path`, when the pattern
`^https?://<path>` matches. -/
def afterHttpPath (path : String) (s : List Char) : Option (List Char) :=
  if ("http://".data ++ path.data).isPrefixOf s then
    some (s.drop (7 + path.length))
  else if ("https://".data ++ path.data).isPrefixOf s then
    some (s.drop (8 + path.length))
  else none

/-- Is the rest of a listing URL `"" `or a query string starting with a
question mark?  (Models the regex tail `(?:\?.*)?$`.) -/
def listTailOk : List Char → Bool
  | [] => true
  | c :: _ => c == '?'

/-- Does `r` decompose as `.*<marker><tail>` with `listTailOk tail`?
Models `.*/new(?:\?.*)?$` applied to the part after `/list/`. -/
def hasMarkedSuffix (marker : String) : List Char → Bool
  | [] => marker.data.isEmpty
  | c :: rest =>
    (marker.data.isPrefixOf (c :: rest) &&
      listTailOk ((c :: rest).drop marker.length)) ||
    hasMarkedSuffix marker rest

/-- The page-type variants of `classify_arxiv_url` (`'other'` = no match). -/
inductive UrlType where
  | abs | pdf | html | new | recent | search | other
deriving DecidableEq, Repr

/-- `classify_arxiv_url` (lines 51-62): first matching pattern in the
dictionary insertion order abs, pdf, html, new, recent, search. -/
def classify_arxiv_url (url : String) : UrlType :=
  if matchesHttpPath "arxiv.org/abs/" url.data then .abs
  else if matchesHttpPath "arxiv.org/pdf/" url.data then .pdf
  else if matchesHttpPath "arxiv.org/html/" url.data then .html
  else if (afterHttpPath "arxiv.org/list/" url.data).elim false
      (hasMarkedSuffix "/new") then .new
  else if (afterHttpPath "arxiv.org/list/" url.data).elim false
      (hasMarkedSuffix "/recent") then .recent
  else if matchesHttpPath "arxiv.org/search/" url.data then .search
  else .other

/-! ## URL normalisation (`url_inspect`, lines 64-76) -/

/-- `url_inspect` (lines 64-76): strip, then root-relative paths get the
base prepended, URLs already starting with the base pass through, anything
else raises `ValueError` (modelled as `Except.error`). -/
def url_inspect (url : String) (base_url : String := "https://arxiv.org") :
    Except String String :=
  let u := pyStrip url
  if pyStartswith u "/" then .ok (base_url ++ u)
  else if pyStartswith u base_url then .ok u
  else .error ("Invalid URL: " ++ u)

/-! ## Date extraction (`extract_date`, lines 80-96) -/

/-- The matches of the regex `(\d{2})(\d{2})\.` in left-to-right,
non-overlapping scan order (the semantics of `re.findall`): at each
position try to match four digits followed by a dot; on success resume
after the dot, otherwise advance one character. -/
def scanDates : List Char → List (Char × Char × Char × Char)
  | c1 :: c2 :: c3 :: c4 :: c5 :: rest =>
    if c1.isDigit && c2.isDigit && c3.isDigit && c4.isDigit && c5 == '.' then
      (c1, c2, c3, c4) :: scanDates rest
    else
      scanDates (c2 :: c3 :: c4 :: c5 :: rest)
  | _ => []

/-- Numeric value of the two month digits (Python `int(month)`). -/
def monthVal (t : Char × Char × Char × Char) : Nat :=
  (t.2.2.1.toNat - '0'.toNat) * 10 + (t.2.2.2.toNat - '0'.toNat)

/-- The month-validity test `1 <= int(month) <= 12` of line 94. -/
def validMonth (t : Char × Char × Char × Char) : Bool :=
  1 ≤ monthVal t && monthVal t ≤ 12

/-- The formatted result of line 95: `YEAR + year + '-' + month + '-01'`. -/
def fmtDate (Y : String) (t : Char × Char × Char × Char) : String :=
  Y ++ String.mk [t.1, t.2.1] ++ "-" ++ String.mk [t.2.2.1, t.2.2.2] ++ "-01"

/-- The `for match in matches` loop of lines 91-96: return the first match
with a valid month, formatted; `None` when no match qualifies. -/
def firstValidDate (Y : String) : List (Char × Char × Char × Char) → Option String
  | [] => none
  | t :: ts => if validMonth t then some (fmtDate Y t) else firstValidDate Y ts

/-- `extract_date` (lines 82-96).  The process-start constant `YEAR`
(line 80, the first two digits of the current year) is a parameter `Y`. -/
def extract_date (Y : String) (url : String) : Option String :=
  firstValidDate Y (scanDates url.data)

/-! ## Author cleanup (`extract_authors` inside `html_scraper`, lines 157-189)

A `span.ltx_personname` tag is modelled by the text produced at line 172:
`get_text(separator='\t', strip=True)` after the `ltx_sup`/`ltx_note`/`a`
descendants have been removed (tree surgery is the HTML library's business;
the spec treats it as "text content with specified descendants excluded").
The remaining lines are embedded exactly. -/

/-- Line 174: split the span text on tabs, strip each piece, keep the
nonempty ones. -/
def author_list (text : String) : List String :=
  ((pySplitChar '\t' text.data).map (fun w => String.mk (pyStripL w))).filter
    (fun a => a ≠ "")

/-- Lines 178-181: drop purely numeric words and bare ampersands, rejoin
with single spaces (the second `' '.join(author.split())` included). -/
def clean_author (author : String) : String :=
  let kept := (pySplitWs author.data).filter
    (fun w => ¬ pyIsdigit w && ¬ (w = ['&']))
  let joined := " ".intercalate (kept.map String.mk)
  " ".intercalate ((pySplitWs joined.data).map String.mk)

/-- Lines 176-186 for one span: clean every author token, keep the
nonempty results. -/
def cleaned_authors (text : String) : List String :=
  ((author_list text).map clean_author).filter (fun a => a ≠ "")

/-- `extract_authors` (lines 157-189) over the list of span texts: collect
the cleaned names of every span, comma-join, then the final
`.replace(', ,', ',')` of line 189. -/
def extract_authors (spans : List String) : String :=
  let authors := (spans.map cleaned_authors).flatten
  String.mk (pyReplaceAll ", ,".data ",".data (", ".intercalate authors).data)

/-! ## The parsed-page model and the extraction result -/

/-- A tag attribute lookup `soup.find(...)[attr]`:
`none` = tag absent (subscripting raises `TypeError`), `some none` = tag
present without the attribute (raises `KeyError`), `some (some v)` = value. -/
abbrev TagAttr := Option (Option String)

/-- The queries the extractors make against the parsed HTML tree. -/
structure Soup where
  /-- `div.authors` text (`None` = tag absent, `.get_text()` raises). -/
  authors_div : Option String
  /-- `meta[name=citation_title]` and its `content` attribute. -/
  citation_title : TagAttr
  /-- `meta[name=citation_date]` and its `content` attribute. -/
  citation_date : TagAttr
  /-- `meta[name=citation_abstract]` and its `content` attribute. -/
  citation_abstract : TagAttr
  /-- `a#latexml-download-link` and its `href` attribute. -/
  latexml_link : TagAttr
  /-- `<title>` text (`None` = tag absent, `.text` raises). -/
  title_tag : Option String
  /-- `div.ltx_authors`: `none` = absent (`.find_all` on `None` raises);
  otherwise the `span.ltx_personname` texts after descendant removal. -/
  ltx_authors : Option (List String)
  /-- The `ltx_abstract` / `ltx_section` blocks, already rendered by the
  opaque `CustomMarkdownify.convert_soup` collaborator. -/
  content_blocks : List String
  /-- Every `<dt>` tag in document order; a `<dt>` is the list of the
  `href` attributes of its `<a>` descendants (`none` = no `href`). -/
  dts : List (List (Option String))
  /-- Every `<a>` tag of the page, by its `href` attribute. -/
  anchors : List (Option String)
deriving DecidableEq, Repr

/-- The article dictionary built by the extractors.  `publish_date` uses
`none` for Python `None` and `some s` for a string (possibly empty). -/
structure Article where
  title : String
  author : String
  publish_date : Option String
  content : String
deriving DecidableEq, Repr

/-- The uniform `(dict, set, list)` result: the article (`none` = the empty
dict), the discovered links (a set, modelled as a duplicate-free list in
insertion order) and the always-empty extra-items list. -/
structure ExtractionResult where
  article : Option Article
  links : List String
  extra : List String
deriving DecidableEq, Repr

/-- Python `set.add`: insert unless already present. -/
def setInsert (acc : List String) (u : String) : List String :=
  if u ∈ acc then acc else acc ++ [u]

/-- The empty `({}, set(), [])` result. -/
def emptyResult : ExtractionResult := ⟨none, [], []⟩

/-- Reading `tag[attr]` from a `TagAttr`, with the two Python failure
modes. -/
def getAttr (t : TagAttr) : Except String String :=
  match t with
  | none => .error "TypeError: NoneType object is not subscriptable"
  | some none => .error "KeyError"
  | some (some v) => .ok v

/-- Accessing an attribute or method of a `find` result: raises
`AttributeError` when the tag was absent (`find` returned `None`). -/
def getOrRaise {α : Type} (t : Option α) (msg : String) : Except String α :=
  match t with
  | none => Except.error msg
  | some v => Except.ok v

/-! ## The abstract-page extractor (`abs_scraper`, lines 122-154) -/

/-- The inner `abs_scraper_` closure (lines 123-140): authors text from
`div.authors` (minus a leading `Authors:`), the three citation meta tags,
date conversion through the collaborator `conv`
(`extract_and_convert_dates`) only when the raw date string is truthy. -/
def abs_scraper_inner (conv : String → Option String) (soup : Soup) :
    Except String ExtractionResult := do
  let authors0 ← getOrRaise soup.authors_div
    "AttributeError: NoneType object has no attribute get_text"
  let citation_title ← getAttr soup.citation_title
  let citation_date ← getAttr soup.citation_date
  let citation_abstract ← getAttr soup.citation_abstract
  pure ⟨some ⟨citation_title,
    if pyStartswith authors0 "Authors:" then String.mk (authors0.data.drop 8)
      else authors0,
    if citation_date ≠ "" then conv citation_date else some citation_date,
    citation_abstract⟩, [], []⟩

/-- `abs_scraper` (lines 122-154).  `mode` is the process-wide
`ARXIV_SCRAPER_MODE`.  In the non-`abs` mode the code subscripts
`soup.find('a', id='latexml-download-link')['href']` before any truthiness
check, so an absent anchor raises; only a present anchor with a falsy
(empty) `href` reaches the metadata fallback. -/
def abs_scraper (conv : String → Option String) (mode : String) (soup : Soup) :
    Except String ExtractionResult :=
  if mode = "abs" then abs_scraper_inner conv soup
  else do
    let html_url ← getAttr soup.latexml_link
    if html_url ≠ "" then do
      let u ← url_inspect html_url
      pure ⟨none, [u], []⟩
    else abs_scraper_inner conv soup

/-! ## The full-page extractor (`html_scraper`, lines 156-209) -/

/-- `html_scraper` (lines 156-209): title from the `<title>` tag, authors
via `extract_authors`, content from the joined converted blocks, publish
date from the URL via `extract_date`. -/
def html_scraper (Y : String) (soup : Soup) (url : String) :
    Except String ExtractionResult := do
  let title ← getOrRaise soup.title_tag
    "AttributeError: NoneType object has no attribute text"
  let spans ← getOrRaise soup.ltx_authors
    "AttributeError: NoneType object has no attribute find_all"
  pure ⟨some ⟨pyStrip title, extract_authors spans, extract_date Y url,
    String.join soup.content_blocks⟩, [], []⟩

/-! ## The listing extractors (`new_scraper` / `recent_scraper`,
lines 211-226) -/

/-- The filter `lambda href: href and seg in href` used by `dt.find('a',
href=...)`: the attribute exists, is truthy (nonempty) and contains the
segment. -/
def anchorMatches (seg : String) (a : Option String) : Bool :=
  match a with
  | some h => h ≠ "" && pyContains seg.data h.data
  | none => false

/-- `dt.find('a', href=lambda ...)['href']`: the first matching anchor's
`href`, `none` when no anchor matches. -/
def find_href (seg : String) (dt : List (Option String)) : Option String :=
  (dt.find? (anchorMatches seg)).join

/-- Lines 216-221 for one `<dt>`: prefer the anchor containing the
configured segment, fall back to the `/abs/` anchor, normalise the chosen
`href`; when neither anchor exists, `href['href']` subscripts `None`. -/
def dt_link (seg : String) (dt : List (Option String)) : Except String String :=
  match find_href seg dt with
  | some h => url_inspect h
  | none =>
    match find_href "/abs/" dt with
    | some h => url_inspect h
    | none => .error "TypeError: NoneType object is not subscriptable"

/-- The `for dt in soup.find_all('dt')` loop of lines 215-221, building the
link set; the first failure aborts the whole loop. -/
def new_collect (seg : String) : List (List (Option String)) → List String →
    Except String (List String)
  | [], acc => .ok acc
  | dt :: rest, acc =>
    match dt_link seg dt with
    | .ok u => new_collect seg rest (setInsert acc u)
    | .error e => .error e

/-- `new_scraper` (lines 211-223): the configured segment is
`f'/{ARXIV_SCRAPER_MODE}/'`. -/
def new_scraper (mode : String) (soup : Soup) : Except String ExtractionResult :=
  (new_collect ("/" ++ mode ++ "/") soup.dts []).map (fun links => ⟨none, links, []⟩)

/-- `recent_scraper` (lines 225-226) delegates to `new_scraper`. -/
def recent_scraper (mode : String) (soup : Soup) : Except String ExtractionResult :=
  new_scraper mode soup

/-! ## The search-results extractor (`search_scraper`, lines 228-233) -/

/-- `search_scraper` (lines 228-233): normalise the `href` of every anchor
containing `/abs/` (any normalisation failure aborts the comprehension),
then collect into a set. -/
def search_scraper (soup : Soup) : Except String ExtractionResult := do
  let hs := soup.anchors.filter (anchorMatches "/abs/")
  let us ← hs.mapM (fun a =>
    match a with
    | some h => url_inspect h
    | none => Except.error "unreachable: filtered anchors have an href")
  pure ⟨none, us.foldl setInsert [], []⟩

/-! ## The dispatcher (`arxiv_scraper`, lines 103-120) -/

/-- The extractor selected for a classified variant (`getattr(self,
'%s_scraper' % url_type, None)`).  `pdf` and `other` have no registered
extractor method; the dispatcher never invokes this function for them, and
their value here is the vacuous `.ok emptyResult`. -/
def run_scraper (conv : String → Option String) (mode Y : String)
    (t : UrlType) (soup : Soup) (url : String) : Except String ExtractionResult :=
  match t with
  | .abs => abs_scraper conv mode soup
  | .html => html_scraper Y soup url
  | .new => new_scraper mode soup
  | .recent => recent_scraper mode soup
  | .search => search_scraper soup
  | .pdf => .ok emptyResult
  | .other => .ok emptyResult

/-- The scheme fix of line 105: `url.replace("http://", "https://", 1)`. -/
def fixScheme (url : String) : String :=
  String.mk (pyReplaceFirst "http://".data "https://".data url.data)

/-- `arxiv_scraper` (lines 103-120): fix the scheme, classify, return
empty for `other` (not an arXiv page shape) and for `pdf` (no
`pdf_scraper` method exists, so `getattr` yields `None`), otherwise run
the matching extractor and absorb any exception into the empty result. -/
def arxiv_scraper (conv : String → Option String) (mode Y : String)
    (soup : Soup) (url0 : String) : ExtractionResult :=
  let url := fixScheme url0
  let t := classify_arxiv_url url
  if t = .other then emptyResult
  else if t = .pdf then emptyResult
  else
    match run_scraper conv mode Y t soup url with
    | .ok r => r
    | .error _ => emptyResult

/-! # Theorems -/

/-! ## Helper lemmas -/

/-- A list whose head fails the predicate is untouched by `dropWhile`. -/
lemma dropWhile_eq_self_of_head (p : Char → Bool) (l : List Char)
    (h : ∀ c, l.head? = some c → p c = false) : l.dropWhile p = l := by
  cases l with
  | nil => rfl
  | cons c t => simp [List.dropWhile_cons, h c rfl]

/-- The head of a `dropWhile` result fails the predicate. -/
lemma head_dropWhile_false (p : Char → Bool) (l : List Char) :
    ∀ c, (l.dropWhile p).head? = some c → p c = false := by
  induction l with
  | nil => simp
  | cons a t ih =>
    intro c h
    rw [List.dropWhile_cons] at h
    by_cases hp : p a
    · exact ih c (by simpa [hp] using h)
    · simp only [hp, if_false] at h
      cases h
      simpa using hp

/-- A list with non-whitespace first and last characters is `strip`-fixed. -/
lemma pyStripL_eq_self (l : List Char)
    (h1 : ∀ c, l.head? = some c → pySpace c = false)
    (h2 : ∀ c, l.getLast? = some c → pySpace c = false) :
    pyStripL l = l := by
  unfold pyStripL
  rw [dropWhile_eq_self_of_head _ _ h1]
  rw [dropWhile_eq_self_of_head _ _ (fun c hc => h2 c (by rwa [List.head?_reverse] at hc))]
  exact List.reverse_reverse l

/-- `pyStartswith` unfolded to list prefixes. -/
lemma pyStartswith_iff (s p : String) :
    pyStartswith s p = true ↔ p.data <+: s.data := by
  simp [pyStartswith]

/-- The match loop of `extract_date` returns the first valid match. -/
lemma firstValidDate_eq_find (Y : String)
    (ts : List (Char × Char × Char × Char)) :
    firstValidDate Y ts = ((ts.find? validMonth).map (fmtDate Y)) := by
  induction ts with
  | nil => rfl
  | cons t ts ih =>
    by_cases h : validMonth t
    · simp [firstValidDate, List.find?_cons, h]
    · simp [firstValidDate, List.find?_cons, h, ih]

/-! ## C4: date extraction from the URL -/

/-- C4: `extract_date` scans the URL for two-digit/two-digit tokens
followed by a dot in order and returns `<century><yy>-<mm>-01` for the
first token with month in 01-12 (`find?` over the scan); a token with an
invalid month (`2413.`) is skipped and scanning continues; with no valid
candidate no date is returned (`none`, not a blank string).  The concrete
conjuncts are the spec's own examples. -/
theorem extract_date_spec :
    (∀ Y url, extract_date Y url =
      ((scanDates url.data).find? validMonth).map (fmtDate Y)) ∧
    extract_date "20" "https://arxiv.org/abs/2412.19784" = some "2024-12-01" ∧
    extract_date "20" "https://arxiv.org/abs/2501.00364" = some "2025-01-01" ∧
    extract_date "20" "https://arxiv.org/abs/2413.11111" = none ∧
    extract_date "20" "https://arxiv.org/a/2413.x/2501.y" = some "2025-01-01" := by
  refine ⟨fun Y url => firstValidDate_eq_find Y (scanDates url.data), ?_, ?_, ?_, ?_⟩
  all_goals decide

/-! ## C5: author cleanup (corrected) -/

/-- C5 counterexample: on the tokens of the claim the cleaned result is
not `"Jane Doe, John Smith"` — the cleanup is applied token by token, so
`"Jane"` and `"Doe"` stay separate comma-joined entries. -/
theorem extract_authors_claim_false :
    extract_authors ["Jane\tDoe\t1\t&\tJohn\tSmith\t2"] ≠ "Jane Doe, John Smith" := by
  decide

/-- C5 amended: on the tokens `["Jane", "Doe", "1", "&", "John", "Smith",
"2"]` the cleaned comma-joined result is `"Jane, Doe, John, Smith"`:
purely numeric tokens and bare ampersand tokens are removed, but each
surviving token is a separate comma-joined entry.  Internal spacing inside
a single token is collapsed (second conjunct). -/
theorem extract_authors_amended :
    extract_authors ["Jane\tDoe\t1\t&\tJohn\tSmith\t2"] = "Jane, Doe, John, Smith" ∧
    extract_authors ["  Jane   Doe  \t 1 \t & "] = "Jane Doe" := by
  constructor
  all_goals decide

/-! ## C6: the normaliser contract -/

/-- C6: after trimming, `url_inspect` prefixes the base to a root-relative
path, passes a URL already starting with the base through unchanged, and
fails exactly when the trimmed URL satisfies neither condition. -/
theorem url_inspect_contract (raw : String) :
    (pyStartswith (pyStrip raw) "/" = true →
      url_inspect raw = Except.ok ("https://arxiv.org" ++ pyStrip raw)) ∧
    (pyStartswith (pyStrip raw) "https://arxiv.org" = true →
      url_inspect raw = Except.ok (pyStrip raw)) ∧
    ((∃ e, url_inspect raw = Except.error e) ↔
      (pyStartswith (pyStrip raw) "/" = false ∧
       pyStartswith (pyStrip raw) "https://arxiv.org" = false)) := by
  refine ⟨?_, ?_, ?_⟩
  · intro h
    simp [url_inspect, h]
  · intro h
    cases hb : pyStartswith (pyStrip raw) "/" with
    | false => simp [url_inspect, hb, h]
    | true =>
      -- both prefix conditions at once are impossible: the base and the
      -- slash would have to be prefixes of one another
      exfalso
      rw [pyStartswith_iff] at h hb
      rcases List.prefix_or_prefix_of_prefix hb h with hp | hp
      · exact absurd hp (by decide)
      · exact absurd hp (by decide)
  · cases h1 : pyStartswith (pyStrip raw) "/" with
    | true =>
      constructor
      · rintro ⟨e, he⟩
        simp [url_inspect, h1] at he
      · rintro ⟨hc, -⟩
        cases hc
    | false =>
      cases h2 : pyStartswith (pyStrip raw) "https://arxiv.org" with
      | true =>
        constructor
        · rintro ⟨e, he⟩
          simp [url_inspect, h1, h2] at he
        · rintro ⟨-, hc⟩
          cases hc
      | false =>
        constructor
        · intro _
          exact ⟨rfl, rfl⟩
        · intro _
          exact ⟨"Invalid URL: " ++ pyStrip raw, by simp [url_inspect, h1, h2]⟩

/-- C6 witness: a root-relative path with surrounding whitespace. -/
theorem url_inspect_contract_witness :
    url_inspect " /abs/2412.19784 " = Except.ok "https://arxiv.org/abs/2412.19784" := by
  have h := (url_inspect_contract " /abs/2412.19784 ").1 (by decide)
  rw [h]
  decide

/-! ## C9: normaliser idempotence -/

/-- The reverse of a stripped list is the whitespace-dropped reverse. -/
lemma pyStripL_reverse (s : List Char) :
    (pyStripL s).reverse = ((s.dropWhile pySpace).reverse).dropWhile pySpace := by
  simp [pyStripL]

/-- The last character of a nonempty stripped string is not whitespace. -/
lemma pyStrip_getLast_not_space (s : String) :
    ∀ c, (pyStrip s).data.getLast? = some c → pySpace c = false := by
  intro c hc
  rw [← List.head?_reverse] at hc
  rw [show (pyStrip s).data = pyStripL s.data from rfl, pyStripL_reverse] at hc
  exact head_dropWhile_false _ _ c hc

/-- C9: feeding the output of `url_inspect` on a root-relative path back
into `url_inspect` (same base) returns that output unchanged. -/
theorem url_inspect_idempotent (path v : String)
    (hp : pyStartswith (pyStrip path) "/" = true)
    (hv : url_inspect path = Except.ok v) :
    url_inspect v = Except.ok v := by
  have hb : ("https://arxiv.org" : String).data = 'h' :: "ttps://arxiv.org".data := rfl
  simp only [url_inspect, hp, if_true, Except.ok.injEq] at hv
  subst hv
  obtain ⟨t, ht⟩ : ("/" : String).data <+: (pyStrip path).data := by
    simpa [pyStartswith] using hp
  have hd : (pyStrip path).data = '/' :: t := ht.symm
  have hdata : ("https://arxiv.org" ++ pyStrip path).data
      = ("https://arxiv.org" : String).data ++ (pyStrip path).data :=
    String.data_append _ _
  have hfix : pyStrip ("https://arxiv.org" ++ pyStrip path)
      = "https://arxiv.org" ++ pyStrip path := by
    have h1 : ∀ c, (("https://arxiv.org" ++ pyStrip path).data).head? = some c →
        pySpace c = false := by
      intro c hc
      rw [hdata, hb, List.cons_append, List.head?_cons] at hc
      cases hc
      decide
    have h2 : ∀ c, (("https://arxiv.org" ++ pyStrip path).data).getLast? = some c →
        pySpace c = false := by
      intro c hc
      rw [hdata, List.getLast?_append] at hc
      cases hl : (pyStrip path).data.getLast? with
      | none =>
        rw [hd] at hl
        simp at hl
      | some x =>
        rw [hl] at hc
        cases hc
        exact pyStrip_getLast_not_space path _ hl
    have := pyStripL_eq_self (("https://arxiv.org" ++ pyStrip path).data) h1 h2
    show String.mk (pyStripL (("https://arxiv.org" ++ pyStrip path).data)) = _
    rw [this]
  have hc1 : pyStartswith ("https://arxiv.org" ++ pyStrip path) "/" = false := by
    rw [pyStartswith, hdata, hb, List.cons_append]
    rfl
  have hc2 : pyStartswith ("https://arxiv.org" ++ pyStrip path)
      "https://arxiv.org" = true := by
    simp [pyStartswith, hdata, List.isPrefixOf_iff_prefix]
  simp [url_inspect, hfix, hc1, hc2]

/-- C9 witness: the round trip at a concrete root-relative path. -/
theorem url_inspect_idempotent_witness :
    url_inspect "https://arxiv.org/abs/2501.00364" =
      Except.ok "https://arxiv.org/abs/2501.00364" := by
  have h := url_inspect_idempotent "/abs/2501.00364"
    "https://arxiv.org/abs/2501.00364" (by decide) (by decide)
  exact h

/-! ## Shared concrete inputs for witnesses and counterexamples -/

/-- A date-normalisation collaborator returning `None` on every input. -/
def conv0 : String → Option String := fun _ => none

/-- The identity date-normalisation collaborator. -/
def convId : String → Option String := fun s => some s

/-- A page on which every query comes back empty. -/
def soup0 : Soup := ⟨none, none, none, none, none, none, none, [], [], []⟩

/-- An abstract page with full citation metadata and no
`latexml-download-link` anchor. -/
def soupMeta : Soup :=
  { soup0 with
    authors_div := some "Authors:Jane Doe",
    citation_title := some (some "Sample Title"),
    citation_date := some (some "2024/12/01"),
    citation_abstract := some (some "Sample abstract") }

/-- `soupMeta` with a rendered-page link. -/
def soupMetaLink : Soup :=
  { soupMeta with latexml_link := some (some "/html/2501.00001v1") }

/-- `soupMeta` with a present anchor whose `href` is empty (falsy). -/
def soupMetaEmptyHref : Soup :=
  { soupMeta with latexml_link := some (some "") }

/-- A listing entry with a well-formed abstract link. -/
def dtGood : List (Option String) := [some "/abs/2501.00001"]

/-- A listing entry whose only `/abs/` link is not root-relative and not
absolute: its normalisation raises. -/
def dtBad : List (Option String) := [some "x/abs/2501.00002"]

/-- A listing entry with anchors but neither a `/html/` nor an `/abs/`
link. -/
def dtNoLinks : List (Option String) := [some "/pdf/2501.00003", none]

/-- A listing page with one good and one unnormalisable entry. -/
def soupLinks : Soup := { soup0 with dts := [dtGood, dtBad] }

/-- A listing page with one good entry and one entry with no usable link. -/
def soupNoLink : Soup := { soup0 with dts := [dtGood, dtNoLinks] }

/-- A listing page with ten entries: eight with rendered-page links, two
with only abstract links. -/
def soup10 : Soup :=
  { soup0 with dts := [
      [some "/abs/2501.00001", some "/html/2501.00001"],
      [some "/abs/2501.00002", some "/html/2501.00002"],
      [some "/abs/2501.00003", some "/html/2501.00003"],
      [some "/abs/2501.00004", some "/html/2501.00004"],
      [some "/abs/2501.00005", some "/html/2501.00005"],
      [some "/abs/2501.00006", some "/html/2501.00006"],
      [some "/abs/2501.00007", some "/html/2501.00007"],
      [some "/abs/2501.00008", some "/html/2501.00008"],
      [some "/abs/2501.00009"],
      [some "/abs/2501.00010"]] }

/-! ## Helper lemmas about the listing loop -/

/-- Membership in the Python-set insertion. -/
lemma mem_setInsert (acc : List String) (u l : String) :
    l ∈ setInsert acc u ↔ l ∈ acc ∨ l = u := by
  by_cases h : u ∈ acc
  · simp only [setInsert, if_pos h]
    constructor
    · exact Or.inl
    · rintro (hl | rfl)
      · exact hl
      · exact h
  · simp [setInsert, if_neg h]

/-- Inversion of a successful `Except` bind. -/
lemma except_bind_ok {α β : Type} (m : Except String α) (f : α → Except String β)
    (b : β) (h : (m >>= f) = Except.ok b) :
    ∃ a, m = Except.ok a ∧ f a = Except.ok b := by
  cases m with
  | error e => exact absurd h (by simp [Bind.bind, Except.bind])
  | ok a => exact ⟨a, rfl, h⟩

/-- If some entry of the listing fails, the whole loop fails. -/
lemma new_collect_error (seg : String) :
    ∀ (dts : List (List (Option String))) (acc : List String),
      (∃ dt ∈ dts, ∃ e, dt_link seg dt = Except.error e) →
      ∃ e2, new_collect seg dts acc = Except.error e2 := by
  intro dts
  induction dts with
  | nil =>
    rintro acc ⟨dt, hdt, -⟩
    cases hdt
  | cons d rest ih =>
    rintro acc ⟨dt, hdt, e, he⟩
    rcases List.mem_cons.mp hdt with rfl | hmem
    · exact ⟨e, by simp [new_collect, he]⟩
    · cases hl : dt_link seg d with
      | ok u =>
        obtain ⟨e2, he2⟩ := ih (setInsert acc u) ⟨dt, hmem, e, he⟩
        exact ⟨e2, by simp [new_collect, hl, he2]⟩
      | error e2 => exact ⟨e2, by simp [new_collect, hl]⟩

/-- If every entry of the listing succeeds, the loop returns exactly the
set of per-entry links (plus the accumulator). -/
lemma new_collect_ok (seg : String) :
    ∀ (dts : List (List (Option String))) (acc : List String),
      (∀ dt ∈ dts, ∃ u, dt_link seg dt = Except.ok u) →
      ∃ ls, new_collect seg dts acc = Except.ok ls ∧
        ∀ l, l ∈ ls ↔ (l ∈ acc ∨ ∃ dt ∈ dts, dt_link seg dt = Except.ok l) := by
  intro dts
  induction dts with
  | nil =>
    intro acc _
    exact ⟨acc, rfl, by simp⟩
  | cons d rest ih =>
    intro acc h
    obtain ⟨u, hu⟩ := h d (List.mem_cons_self d rest)
    obtain ⟨ls, hls, hmem⟩ :=
      ih (setInsert acc u) (fun dt hdt => h dt (List.mem_cons_of_mem d hdt))
    refine ⟨ls, by simp [new_collect, hu, hls], ?_⟩
    intro l
    rw [hmem l, mem_setInsert]
    constructor
    · rintro ((hl | rfl) | ⟨dt, hdt, hdl⟩)
      · exact Or.inl hl
      · exact Or.inr ⟨d, List.mem_cons_self d rest, hu⟩
      · exact Or.inr ⟨dt, List.mem_cons_of_mem d hdt, hdl⟩
    · rintro (hl | ⟨dt, hdt, hdl⟩)
      · exact Or.inl (Or.inl hl)
      · rcases List.mem_cons.mp hdt with rfl | hmem2
        · rw [hu] at hdl
          cases hdl
          exact Or.inl (Or.inr rfl)
        · exact Or.inr ⟨dt, hmem2, hdl⟩

/-! ## Result-shape lemmas for the individual extractors -/

/-- The metadata branch produces an article and no links. -/
lemma abs_inner_shape (cv : String → Option String) (soup : Soup)
    (r : ExtractionResult) (h : abs_scraper_inner cv soup = Except.ok r) :
    (∃ a, r.article = some a) ∧ r.links = [] ∧ r.extra = [] := by
  unfold abs_scraper_inner at h
  obtain ⟨a0, h1, h⟩ := except_bind_ok _ _ _ h
  obtain ⟨t1, h2, h⟩ := except_bind_ok _ _ _ h
  obtain ⟨d1, h3, h⟩ := except_bind_ok _ _ _ h
  obtain ⟨b1, h4, h⟩ := except_bind_ok _ _ _ h
  cases h
  exact ⟨⟨_, rfl⟩, rfl, rfl⟩

/-- The abstract-page extractor never returns both an article and links. -/
lemma abs_shape (cv : String → Option String) (mode : String) (soup : Soup)
    (r : ExtractionResult) (h : abs_scraper cv mode soup = Except.ok r) :
    (r.article = none ∨ r.links = []) ∧ r.extra = [] := by
  unfold abs_scraper at h
  split at h
  · obtain ⟨⟨a, _⟩, hl, he⟩ := abs_inner_shape _ _ _ h
    exact ⟨Or.inr hl, he⟩
  · obtain ⟨hu, h1, h⟩ := except_bind_ok _ _ _ h
    split at h
    · obtain ⟨u, h2, h⟩ := except_bind_ok _ _ _ h
      cases h
      exact ⟨Or.inl rfl, rfl⟩
    · obtain ⟨⟨a, _⟩, hl, he⟩ := abs_inner_shape _ _ _ h
      exact ⟨Or.inr hl, he⟩

/-- The full-page extractor returns an article and no links. -/
lemma html_shape (Y : String) (soup : Soup) (url : String)
    (r : ExtractionResult) (h : html_scraper Y soup url = Except.ok r) :
    (r.article = none ∨ r.links = []) ∧ r.extra = [] := by
  unfold html_scraper at h
  obtain ⟨t1, h1, h⟩ := except_bind_ok _ _ _ h
  obtain ⟨a1, h2, h⟩ := except_bind_ok _ _ _ h
  cases h
  exact ⟨Or.inr rfl, rfl⟩

/-- The listing extractor returns links and no article. -/
lemma new_shape (mode : String) (soup : Soup)
    (r : ExtractionResult) (h : new_scraper mode soup = Except.ok r) :
    r.article = none ∧ r.extra = [] := by
  unfold new_scraper at h
  cases hc : new_collect ("/" ++ mode ++ "/") soup.dts [] with
  | ok ls =>
    rw [hc] at h
    simp only [Except.map, Except.ok.injEq] at h
    rw [← h]
    exact ⟨rfl, rfl⟩
  | error e =>
    rw [hc] at h
    simp [Except.map] at h

/-- The search extractor returns links and no article. -/
lemma search_shape (soup : Soup)
    (r : ExtractionResult) (h : search_scraper soup = Except.ok r) :
    r.article = none ∧ r.extra = [] := by
  unfold search_scraper at h
  obtain ⟨us, h1, h⟩ := except_bind_ok _ _ _ h
  cases h
  exact ⟨rfl, rfl⟩

/-! ## C1: the dispatcher absorbs every failure -/

/-- C1: the dispatcher returns the empty result when classification yields
`other`, when the classified variant (`pdf`) has no registered extractor
method, and when the invoked extractor raises; in every case its output is
either the empty result or the `ok` output of the selected extractor — it
never propagates an exception. -/
theorem dispatcher_failure_containment (cv : String → Option String)
    (mode Y : String) (soup : Soup) (url0 : String) :
    (classify_arxiv_url (fixScheme url0) = UrlType.other →
      arxiv_scraper cv mode Y soup url0 = emptyResult) ∧
    (classify_arxiv_url (fixScheme url0) = UrlType.pdf →
      arxiv_scraper cv mode Y soup url0 = emptyResult) ∧
    (∀ e, run_scraper cv mode Y (classify_arxiv_url (fixScheme url0)) soup
        (fixScheme url0) = Except.error e →
      arxiv_scraper cv mode Y soup url0 = emptyResult) ∧
    (arxiv_scraper cv mode Y soup url0 = emptyResult ∨
      ∃ r, run_scraper cv mode Y (classify_arxiv_url (fixScheme url0)) soup
          (fixScheme url0) = Except.ok r ∧
        arxiv_scraper cv mode Y soup url0 = r) := by
  refine ⟨?_, ?_, ?_, ?_⟩
  · intro h
    simp [arxiv_scraper, h]
  · intro h
    simp [arxiv_scraper, h]
  · intro e he
    by_cases h1 : classify_arxiv_url (fixScheme url0) = UrlType.other
    · simp [arxiv_scraper, h1]
    · by_cases h2 : classify_arxiv_url (fixScheme url0) = UrlType.pdf
      · simp [arxiv_scraper, h2]
      · simp [arxiv_scraper, h1, h2, he]
  · by_cases h1 : classify_arxiv_url (fixScheme url0) = UrlType.other
    · exact Or.inl (by simp [arxiv_scraper, h1])
    · by_cases h2 : classify_arxiv_url (fixScheme url0) = UrlType.pdf
      · exact Or.inl (by simp [arxiv_scraper, h2])
      · cases hr : run_scraper cv mode Y (classify_arxiv_url (fixScheme url0))
            soup (fixScheme url0) with
        | error e => exact Or.inl (by simp [arxiv_scraper, h1, h2, hr])
        | ok r => exact Or.inr ⟨r, rfl, by simp [arxiv_scraper, h1, h2, hr]⟩

/-- C1 witness: a non-arXiv URL classifies as `other` and the dispatcher
returns the empty result. -/
theorem dispatcher_failure_containment_witness :
    arxiv_scraper conv0 "abs" "20" soup0 "ftp://not-arxiv/abs/1" = emptyResult :=
  (dispatcher_failure_containment conv0 "abs" "20" soup0
    "ftp://not-arxiv/abs/1").1 (by decide)

/-! ## C8: the result-shape invariant -/

/-- C8: every extractor and every dispatcher call that returns normally
yields a result that never has both a populated article and nonempty
discovered links, and whose extra-items component is always empty. -/
theorem extraction_result_shape (cv : String → Option String)
    (mode Y : String) (soup : Soup) (url : String) :
    (∀ r, abs_scraper cv mode soup = Except.ok r →
      (r.article = none ∨ r.links = []) ∧ r.extra = []) ∧
    (∀ r, html_scraper Y soup url = Except.ok r →
      (r.article = none ∨ r.links = []) ∧ r.extra = []) ∧
    (∀ r, new_scraper mode soup = Except.ok r →
      (r.article = none ∨ r.links = []) ∧ r.extra = []) ∧
    (∀ r, recent_scraper mode soup = Except.ok r →
      (r.article = none ∨ r.links = []) ∧ r.extra = []) ∧
    (∀ r, search_scraper soup = Except.ok r →
      (r.article = none ∨ r.links = []) ∧ r.extra = []) ∧
    (((arxiv_scraper cv mode Y soup url).article = none ∨
        (arxiv_scraper cv mode Y soup url).links = []) ∧
      (arxiv_scraper cv mode Y soup url).extra = []) := by
  refine ⟨fun r h => abs_shape cv mode soup r h,
    fun r h => html_shape Y soup url r h,
    fun r h => ⟨Or.inl (new_shape mode soup r h).1, (new_shape mode soup r h).2⟩,
    fun r h => ⟨Or.inl (new_shape mode soup r h).1, (new_shape mode soup r h).2⟩,
    fun r h => ⟨Or.inl (search_shape soup r h).1, (search_shape soup r h).2⟩,
    ?_⟩
  by_cases h1 : classify_arxiv_url (fixScheme url) = UrlType.other
  · simp [arxiv_scraper, h1, emptyResult]
  · by_cases h2 : classify_arxiv_url (fixScheme url) = UrlType.pdf
    · simp [arxiv_scraper, h2, emptyResult]
    · cases hr : run_scraper cv mode Y (classify_arxiv_url (fixScheme url))
          soup (fixScheme url) with
      | error e => simp [arxiv_scraper, h1, h2, hr, emptyResult]
      | ok r =>
        have hP : (r.article = none ∨ r.links = []) ∧ r.extra = [] := by
          cases ht : classify_arxiv_url (fixScheme url) with
          | abs =>
            rw [ht] at hr
            exact abs_shape _ _ _ _ hr
          | pdf => exact absurd ht h2
          | html =>
            rw [ht] at hr
            exact html_shape _ _ _ _ hr
          | new =>
            rw [ht] at hr
            exact ⟨Or.inl (new_shape _ _ _ hr).1, (new_shape _ _ _ hr).2⟩
          | recent =>
            rw [ht] at hr
            exact ⟨Or.inl (new_shape _ _ _ hr).1, (new_shape _ _ _ hr).2⟩
          | search =>
            rw [ht] at hr
            exact ⟨Or.inl (search_shape _ _ hr).1, (search_shape _ _ hr).2⟩
          | other => exact absurd ht h1
        have hd : arxiv_scraper cv mode Y soup url = r := by
          simp [arxiv_scraper, h1, h2, hr]
        rw [hd]
        exact hP

/-- The metadata article result used by several concrete checks. -/
def resMeta : ExtractionResult :=
  ⟨some ⟨"Sample Title", "Jane Doe", some "2024/12/01", "Sample abstract"⟩,
    [], []⟩

/-- C8 witness: a concrete metadata extraction satisfies the invariant. -/
theorem extraction_result_shape_witness :
    (resMeta.article = none ∨ resMeta.links = []) ∧ resMeta.extra = [] :=
  (extraction_result_shape convId "abs" "20" soupMeta
    "https://arxiv.org/abs/2501.00001").1 resMeta (by decide)

/-! ## C2: the missing rendered-page link (code bug)

In the non-`abs` mode the code executes
`soup.find('a', id='latexml-download-link')['href']` before any check, so
when the anchor is wholly absent the subscript raises `TypeError` and the
metadata fallback of the `else` branch (line 154) is unreachable; the
fallback only fires for a present anchor with an empty (falsy) `href`. -/

/-- C2 evidence: on an abstract page with full metadata but no
`latexml-download-link` anchor, the non-`abs` mode raises instead of
falling back to the metadata article (first conjunct), even though the
metadata branch succeeds on the same page (second conjunct); with the
anchor present and nonempty the extractor returns exactly that single
normalised link and no article (third conjunct); with a present but empty
`href` the fallback does fire (fourth conjunct); the dispatcher absorbs
the raise into the empty result (fifth conjunct). -/
theorem abs_scraper_missing_link_raises :
    abs_scraper convId "html" soupMeta =
      Except.error "TypeError: NoneType object is not subscriptable" ∧
    abs_scraper convId "abs" soupMeta = Except.ok resMeta ∧
    abs_scraper convId "html" soupMetaLink =
      Except.ok ⟨none, ["https://arxiv.org/html/2501.00001v1"], []⟩ ∧
    abs_scraper convId "html" soupMetaEmptyHref = Except.ok resMeta ∧
    arxiv_scraper convId "html" "20" soupMeta
      "https://arxiv.org/abs/2501.00001" = emptyResult := by
  refine ⟨?_, ?_, ?_, ?_, ?_⟩
  all_goals decide

/-! ## C3: a bad link aborts the whole listing extraction (corrected) -/

/-- C3 counterexample: on a listing page whose first entry normalises fine
and whose second entry's only `/abs/` link is unresolvable, the extractor
does not return the remaining normalised link — the whole call fails. -/
theorem new_scraper_no_partial_result :
    (new_scraper "html" soupLinks).isOk = false ∧
    new_scraper "html" soupLinks =
      Except.error "Invalid URL: x/abs/2501.00002" := by
  constructor
  all_goals decide

/-- C3 amended: when a link of a listing entry cannot be resolved by the
normaliser, the exception propagates out of the extractor, aborting it (no
partial link set is returned); the dispatcher absorbs it and returns the
empty result, so the failure is never fatal to the caller. -/
theorem new_scraper_invalid_link_aborts (cv : String → Option String)
    (mode Y : String) (soup : Soup) (url0 : String)
    (hdt : ∃ dt ∈ soup.dts, (dt_link ("/" ++ mode ++ "/") dt).isOk = false)
    (hc : classify_arxiv_url (fixScheme url0) = UrlType.new ∨
        classify_arxiv_url (fixScheme url0) = UrlType.recent) :
    (∃ e, new_scraper mode soup = Except.error e) ∧
    arxiv_scraper cv mode Y soup url0 = emptyResult := by
  have hdt2 : ∃ dt ∈ soup.dts, ∃ e,
      dt_link ("/" ++ mode ++ "/") dt = Except.error e := by
    obtain ⟨dt, hm, hk⟩ := hdt
    cases hv : dt_link ("/" ++ mode ++ "/") dt with
    | ok u =>
      rw [hv] at hk
      simp [Except.isOk, Except.toBool] at hk
    | error e => exact ⟨dt, hm, e, hv⟩
  obtain ⟨e, he⟩ := new_collect_error _ soup.dts [] hdt2
  have hns : new_scraper mode soup = Except.error e := by
    unfold new_scraper
    rw [he]
    rfl
  refine ⟨⟨e, hns⟩, ?_⟩
  rcases hc with hc | hc <;>
    simp [arxiv_scraper, hc, run_scraper, recent_scraper, hns]

/-- C3 witness: the concrete two-entry listing aborts and the dispatcher
returns the empty result. -/
theorem new_scraper_invalid_link_aborts_witness :
    (∃ e, new_scraper "html" soupLinks = Except.error e) ∧
    arxiv_scraper conv0 "html" "20" soupLinks
      "https://arxiv.org/list/cs/new" = emptyResult :=
  new_scraper_invalid_link_aborts conv0 "html" "20" soupLinks
    "https://arxiv.org/list/cs/new" (by decide) (Or.inl (by decide))

/-! ## C7: the listing extractors collect one link per entry -/

/-- C7: when every listing entry has a usable link (preferring the
configured page-type segment and falling back to `/abs/`), both listing
extractors succeed with no article, an empty extra-items list, and a link
set containing exactly the normalised chosen link of each entry. -/
theorem listing_extractor_links (mode : String) (soup : Soup)
    (h : ∀ dt ∈ soup.dts, (dt_link ("/" ++ mode ++ "/") dt).isOk = true) :
    ∃ r, new_scraper mode soup = Except.ok r ∧
      recent_scraper mode soup = Except.ok r ∧
      r.article = none ∧ r.extra = [] ∧
      ∀ l, l ∈ r.links ↔
        ∃ dt ∈ soup.dts, dt_link ("/" ++ mode ++ "/") dt = Except.ok l := by
  have h2 : ∀ dt ∈ soup.dts, ∃ u,
      dt_link ("/" ++ mode ++ "/") dt = Except.ok u := by
    intro dt hdt
    cases hv : dt_link ("/" ++ mode ++ "/") dt with
    | ok u => exact ⟨u, rfl⟩
    | error e =>
      have hk := h dt hdt
      rw [hv] at hk
      simp [Except.isOk, Except.toBool] at hk
  obtain ⟨ls, hls, hmem⟩ := new_collect_ok _ soup.dts [] h2
  refine ⟨⟨none, ls, []⟩, by unfold new_scraper; rw [hls]; rfl,
    by unfold recent_scraper new_scraper; rw [hls]; rfl, rfl, rfl, ?_⟩
  intro l
  rw [show (⟨none, ls, []⟩ : ExtractionResult).links = ls from rfl, hmem l]
  simp

/-- C7 witness: the ten-entry listing (eight entries with rendered-page
links, two with only abstract links) yields exactly ten normalised links
and no article. -/
theorem listing_extractor_links_witness :
    (∃ r, new_scraper "html" soup10 = Except.ok r ∧
      recent_scraper "html" soup10 = Except.ok r ∧
      r.article = none ∧ r.extra = [] ∧
      ∀ l, l ∈ r.links ↔
        ∃ dt ∈ soup10.dts, dt_link "/html/" dt = Except.ok l) ∧
    new_scraper "html" soup10 = Except.ok ⟨none,
      ["https://arxiv.org/html/2501.00001", "https://arxiv.org/html/2501.00002",
       "https://arxiv.org/html/2501.00003", "https://arxiv.org/html/2501.00004",
       "https://arxiv.org/html/2501.00005", "https://arxiv.org/html/2501.00006",
       "https://arxiv.org/html/2501.00007", "https://arxiv.org/html/2501.00008",
       "https://arxiv.org/abs/2501.00009", "https://arxiv.org/abs/2501.00010"],
      []⟩ ∧
    ["https://arxiv.org/html/2501.00001", "https://arxiv.org/html/2501.00002",
     "https://arxiv.org/html/2501.00003", "https://arxiv.org/html/2501.00004",
     "https://arxiv.org/html/2501.00005", "https://arxiv.org/html/2501.00006",
     "https://arxiv.org/html/2501.00007", "https://arxiv.org/html/2501.00008",
     "https://arxiv.org/abs/2501.00009", "https://arxiv.org/abs/2501.00010"].length
      = 10 :=
  ⟨listing_extractor_links "html" soup10 (by decide), by decide, by decide⟩

/-! ## C10: an entry with no usable link discards the whole page -/

/-- C10: if any entry of a listing page has neither a link containing the
configured segment nor an `/abs/` link, the listing extractor raises
(subscripting the missing anchor), and the dispatcher absorbs the raise
and returns the empty result — every link from the page, including the
ones already collected, is discarded. -/
theorem listing_missing_entry_discards_page (cv : String → Option String)
    (mode Y : String) (soup : Soup) (url0 : String)
    (hdt : ∃ dt ∈ soup.dts, find_href ("/" ++ mode ++ "/") dt = none ∧
      find_href "/abs/" dt = none)
    (hc : classify_arxiv_url (fixScheme url0) = UrlType.new ∨
        classify_arxiv_url (fixScheme url0) = UrlType.recent) :
    (∃ e, new_scraper mode soup = Except.error e) ∧
    arxiv_scraper cv mode Y soup url0 = emptyResult := by
  have hdt2 : ∃ dt ∈ soup.dts, ∃ e,
      dt_link ("/" ++ mode ++ "/") dt = Except.error e := by
    obtain ⟨dt, hm, h1, h2⟩ := hdt
    exact ⟨dt, hm, "TypeError: NoneType object is not subscriptable",
      by simp [dt_link, h1, h2]⟩
  obtain ⟨e, he⟩ := new_collect_error _ soup.dts [] hdt2
  have hns : new_scraper mode soup = Except.error e := by
    unfold new_scraper
    rw [he]
    rfl
  refine ⟨⟨e, hns⟩, ?_⟩
  rcases hc with hc | hc <;>
    simp [arxiv_scraper, hc, run_scraper, recent_scraper, hns]

/-- C10 witness: a recent-listing page with one good entry and one entry
with no usable link yields the empty result, discarding the good link. -/
theorem listing_missing_entry_discards_page_witness :
    (∃ e, new_scraper "html" soupNoLink = Except.error e) ∧
    arxiv_scraper conv0 "html" "20" soupNoLink
      "https://arxiv.org/list/cs/recent" = emptyResult :=
  listing_missing_entry_discards_page conv0 "html" "20" soupNoLink
    "https://arxiv.org/list/cs/recent" (by decide) (Or.inr (by decide))
